import Mathlib

/-!
Shallow embedding of the particle-simulation core of this repository
(src/particles.js): the per-frame physics integration
(ParticleSimulation.updateParticles), shape morphing (toggleShape),
reset (resetParticles), the frame step (animate), the pseudo-noise
function (noise3D), and the SoundManager note-trigger state machine
(triggerInteractionSound / playNote / the setTimeout voice cleanup).

JavaScript floating-point numbers are modelled as real numbers; the
JavaScript remainder operator on floats is modelled by truncation
toward zero.  The flat Float32Array buffers (three entries per
particle) are modelled as lists of 3-vectors, one entry per particle.
-/

noncomputable section

namespace ParticleSim

/-- A 3-component vector: one particle's slice of a flat buffer, or a
THREE.Vector3 value such as the interaction point. -/
@[ext]
structure Vec3 where
  x : ℝ
  y : ℝ
  z : ℝ

/-- The tunable options of the simulation (ParticleSimulation.config,
src/particles.js lines 177-192). -/
structure Config where
  particleCount : ℕ
  particleSize : ℝ
  mouseRadius : ℝ
  mouseForce : ℝ
  returnSpeed : ℝ
  rotationSpeed : ℝ
  noiseAmount : ℝ
  windStrength : ℝ
  windTurbulence : ℝ
  damping : ℝ

/-- The constructor defaults of ParticleSimulation.config. -/
def defaultConfig : Config :=
  { particleCount := 90000
    particleSize := 2.5
    mouseRadius := 150
    mouseForce := 1.0
    returnSpeed := 0.0009
    rotationSpeed := 0.003
    noiseAmount := 0.1
    windStrength := 0.09
    windTurbulence := 0.2
    damping := 0.96 }

/-- Truncation toward zero, the rounding JavaScript's remainder operator
performs on its quotient. -/
def jsTrunc (a : ℝ) : ℤ := if 0 ≤ a then ⌊a⌋ else ⌈a⌉

/-- JavaScript's remainder by 1: the result of the expression a % 1 for a
finite float a.  It keeps the sign of a and satisfies -1 < jsRem1 a < 1. -/
def jsRem1 (a : ℝ) : ℝ := a - (jsTrunc a : ℝ)

/-- ParticleSimulation.noise3D (src/particles.js lines 622-625):
sin of a dot product with fixed irrational-looking constants, scaled and
reduced modulo 1 with JavaScript remainder semantics. -/
def noise3D (x y z : ℝ) : ℝ :=
  jsRem1 (Real.sin (x * 12.9898 + y * 78.233 + z * 37.719) * 43758.5453)

/-- Euclidean distance between two points, written exactly as the source
computes it: the square root of the sum of products of differences. -/
def dist3 (a b : Vec3) : ℝ :=
  Real.sqrt ((a.x - b.x) * (a.x - b.x) + (a.y - b.y) * (a.y - b.y) +
    (a.z - b.z) * (a.z - b.z))

/-- The per-frame wind vector, x component (updateParticles line 668):
cos(time*0.1) * windStrength. -/
def windX (cfg : Config) (t : ℝ) : ℝ := Real.cos (t * 0.1) * cfg.windStrength

/-- The per-frame wind vector, y component (line 669). -/
def windY (cfg : Config) (t : ℝ) : ℝ :=
  Real.sin (t * 0.1 * 0.7) * cfg.windStrength * 0.5

/-- The per-frame wind vector, z component (line 670). -/
def windZ (cfg : Config) (t : ℝ) : ℝ :=
  Real.sin (t * 0.1 * 0.5) * cfg.windStrength * 0.3

/-- The repulsion force magnitude of updateParticles line 702:
(1 - dist/mouseRadius) * (1 - dist/mouseRadius) * mouseForce, where the
effective mouseForce is config.mouseForce times 2.5 while the mouse is
pressed (line 660). -/
def interactionForce (cfg : Config) (pressed : Bool) (dist : ℝ) : ℝ :=
  (1 - dist / cfg.mouseRadius) * (1 - dist / cfg.mouseRadius) *
    (cfg.mouseForce * (if pressed then 2.5 else 1))

/-- The mouse-interaction update of one particle's velocity
(updateParticles lines 696-708): inside the interaction radius and at
positive distance, add the radial repulsion plus the tangential swirl;
otherwise leave the velocity untouched. -/
def interactionStep (cfg : Config) (pressed : Bool) (m p v : Vec3) : Vec3 :=
  let dx := p.x - m.x
  let dy := p.y - m.y
  let dz := p.z - m.z
  let dist := dist3 p m
  if dist < cfg.mouseRadius ∧ 0 < dist then
    let force := interactionForce cfg pressed dist
    let tangentX := -dy * 0.3
    let tangentY := dx * 0.3
    ⟨v.x + dx / dist * force + tangentX * force * 0.2,
     v.y + dy / dist * force + tangentY * force * 0.2,
     v.z + dz / dist * force⟩
  else v

/-- The contribution of one particle to totalInteractionForce
(updateParticles lines 710-713): the force magnitude, counted only inside
the interaction radius and only when it exceeds 0.1. -/
def energyContrib (cfg : Config) (pressed : Bool) (m p : Vec3) : ℝ :=
  let dist := dist3 p m
  if (dist < cfg.mouseRadius ∧ 0 < dist) ∧
      0.1 < interactionForce cfg pressed dist then
    interactionForce cfg pressed dist
  else 0

/-- The wind/turbulence update of one particle's velocity (updateParticles
lines 716-724).  Note the turbulence samples are multiplied by
windTurbulence and windInfluence only - windStrength scales just the base
windX/windY/windZ vector. -/
def windStep (cfg : Config) (t : ℝ) (p : Vec3) (displacement : ℝ)
    (v : Vec3) : Vec3 :=
  let windInfluence := min (displacement / 50) 1 * 0.5
  let turbX := noise3D (p.x * 0.01 + t * 0.2) (p.y * 0.01) (p.z * 0.01)
  let turbY := noise3D (p.x * 0.01) (p.y * 0.01 + t * 0.2) (p.z * 0.01)
  let turbZ := noise3D (p.x * 0.01) (p.y * 0.01) (p.z * 0.01 + t * 0.2)
  ⟨v.x + (windX cfg t + turbX * cfg.windTurbulence) * windInfluence * 0.05,
   v.y + (windY cfg t + turbY * cfg.windTurbulence) * windInfluence * 0.05,
   v.z + (windZ cfg t + turbZ * cfg.windTurbulence) * windInfluence * 0.05⟩

/-- The return-spring update of one particle's velocity (updateParticles
lines 726-731): active only when the displacement from origin exceeds 0.1,
with pull strength growing with the displacement. -/
def returnStep (cfg : Config) (p o : Vec3) (displacement : ℝ)
    (v : Vec3) : Vec3 :=
  if 0.1 < displacement then
    let pullStrength := cfg.returnSpeed * (1 + displacement * 0.01)
    ⟨v.x + (o.x - p.x) * pullStrength,
     v.y + (o.y - p.y) * pullStrength,
     v.z + (o.z - p.z) * pullStrength⟩
  else v

/-- The ambient jitter update of one particle's velocity (updateParticles
lines 733-739), guarded by noiseAmount > 0. -/
def jitterStep (cfg : Config) (t : ℝ) (p v : Vec3) : Vec3 :=
  if 0 < cfg.noiseAmount then
    ⟨v.x + noise3D (p.x * 0.01 + t * 0.2) (p.y * 0.01) (p.z * 0.01) *
        cfg.noiseAmount * 0.01,
     v.y + noise3D (p.x * 0.01) (p.y * 0.01 + t * 0.2) (p.z * 0.01) *
        cfg.noiseAmount * 0.01,
     v.z + noise3D (p.x * 0.01) (p.y * 0.01) (p.z * 0.01 + t * 0.2) *
        cfg.noiseAmount * 0.01⟩
  else v

/-- The full loop body of updateParticles for one particle (lines 680-748):
interaction, wind, return spring, jitter, Euler step, damping.  Returns the
new position, the new velocity, and the particle's contribution to
totalInteractionForce. -/
def updateParticle (cfg : Config) (pressed : Bool) (m : Vec3) (t : ℝ)
    (p o v : Vec3) : Vec3 × Vec3 × ℝ :=
  let displacement := dist3 p o
  let v1 := interactionStep cfg pressed m p v
  let energy := energyContrib cfg pressed m p
  let v2 := windStep cfg t p displacement v1
  let v3 := returnStep cfg p o displacement v2
  let v4 := jitterStep cfg t p v3
  (⟨p.x + v4.x, p.y + v4.y, p.z + v4.z⟩,
   ⟨v4.x * cfg.damping, v4.y * cfg.damping, v4.z * cfg.damping⟩,
   energy)

/-- The three shapes of ParticleSimulation.shapeOrder. -/
inductive Shape
  | sphere
  | cube
  | pyramid
deriving DecidableEq

/-- ParticleSimulation.shapeOrder (line 207). -/
def shapeOrder : List Shape := [Shape.sphere, Shape.cube, Shape.pyramid]

/-- The shape-cycle advance computed by toggleShape (lines 769-771):
index of the current shape in shapeOrder, plus one, modulo the length. -/
def nextShapeOf (sh : Shape) : Shape :=
  shapeOrder.getD ((shapeOrder.indexOf sh + 1) % shapeOrder.length) Shape.sphere

/-- The simulation state touched by the per-frame loop and the discrete
operations: the three per-particle buffers (position, originalPosition,
velocity, each of length particleCount with one Vec3 per particle), the
precomputed point cloud of every shape, and the scalar flags of
ParticleSimulation.  rotationY models particles.rotation.y; mouseWorld is
the pointer's world-space interaction point. -/
structure SimState where
  config : Config
  position : List Vec3
  origin : List Vec3
  velocity : List Vec3
  currentShape : Shape
  shapes : Shape → List Vec3
  isTransforming : Bool
  isFrozen : Bool
  isInverted : Bool
  isMouseDown : Bool
  rotationY : ℝ
  cooldown : ℕ
  mouseWorld : Vec3

/-- Rotation about the y axis by angle th, as THREE applies
particles.rotation.y to local coordinates. -/
def rotY (th : ℝ) (v : Vec3) : Vec3 :=
  ⟨Real.cos th * v.x + Real.sin th * v.z, v.y,
   -(Real.sin th) * v.x + Real.cos th * v.z⟩

/-- The pointer transform of updateParticles line 675, which applies the
inverted particles.matrixWorld: the particles object only rotates about y,
so the inverse world matrix is the rotation by the negated angle. -/
def rotYInv (th : ℝ) (v : Vec3) : Vec3 := rotY (-th) v

/-- ParticleSimulation.updateParticles at the state level (lines 654-766):
decrement the cooldown when positive, transform the pointer into the
rotating local frame, run the loop body over every particle, and return the
new state together with the frame's accumulated totalInteractionForce.
The audio decision taken on that total (lines 750-757) is modelled
separately by audioDecision. -/
def updateParticlesSim (s : SimState) (t : ℝ) : SimState × ℝ :=
  let cool := if 0 < s.cooldown then s.cooldown - 1 else s.cooldown
  let m := rotYInv s.rotationY s.mouseWorld
  let res := (s.position.zip (s.origin.zip s.velocity)).map
    (fun pov => updateParticle s.config s.isMouseDown m t pov.1 pov.2.1 pov.2.2)
  ({ s with
      position := res.map (fun r => r.1)
      velocity := res.map (fun r => r.2.1)
      cooldown := cool
      isTransforming := false },
   (res.map (fun r => r.2.2)).sum)

/-- The audio decision at the end of updateParticles (lines 750-757):
soundManager.triggerInteractionSound is invoked with the accumulated total
exactly when the total exceeds 5.0 and the frame's Math.random() draw r is
below min(total * 0.005, 0.5); the result carries the forwarded intensity. -/
def audioDecision (total r : ℝ) : Option ℝ :=
  if 5.0 < total then
    if r < min (total * 0.005) 0.5 then some total else none
  else none

/-- ParticleSimulation.animate, state part (lines 631-652): always add the
rotation increment, with the sign flipped while the inverted color mode is
active, then run the physics integration only when not frozen.  Returns the
new state and the frame's accumulated interaction energy (0 when frozen). -/
def animateStep (s : SimState) (t : ℝ) : SimState × ℝ :=
  let spinDirection : ℝ := if s.isInverted then -1 else 1
  let s1 := { s with
    rotationY := s.rotationY + s.config.rotationSpeed * spinDirection }
  if s1.isFrozen then (s1, 0) else updateParticlesSim s1 t

/-- ParticleSimulation.toggleShape (lines 768-782): advance the shape
cycle, copy the new shape's point cloud into the originalPosition buffer
(both have length particleCount), and flag the transform; position and
velocity buffers are not touched. -/
def toggleShape (s : SimState) : SimState :=
  let next := nextShapeOf s.currentShape
  { s with currentShape := next, origin := s.shapes next,
           isTransforming := true }

/-- ParticleSimulation.resetParticles (lines 604-616): copy every entry of
originalPosition into position (both buffers have length particleCount) and
zero every velocity entry. -/
def resetParticles (s : SimState) : SimState :=
  { s with position := s.origin
           velocity := List.replicate s.velocity.length ⟨0, 0, 0⟩ }

/-- SoundManager.maxVoices (line 32). -/
def maxVoices : ℕ := 8

/-- SoundManager.noteDensity in seconds (line 29). -/
def noteDensity : ℝ := 0.15

/-- The SoundManager state read and written by triggerInteractionSound and
the voice lifecycle: the initialization and mute flags, the activeVoices
counter, the number of setTimeout voice-cleanup callbacks still pending
(one is scheduled by each playNote, line 163), the time of the last note,
and a counter of notes started (one increment per playNote call). -/
structure SoundState where
  isInitialized : Bool
  isMuted : Bool
  activeVoices : ℤ
  scheduled : ℕ
  lastNoteTime : ℝ
  notesStarted : ℕ

/-- SoundManager.triggerInteractionSound (lines 95-112): return untouched
when uninitialized or muted, when the voice cap is reached, or when the
previous note is less than noteDensity seconds old; otherwise playNote
(increment activeVoices, schedule one cleanup, count the note) and record
the note time.  now is ctx.currentTime at the call.  The ctx.resume() on a
suspended context affects only the external AudioContext, not this state. -/
def triggerInteractionSound (s : SoundState) (now : ℝ) : SoundState :=
  if s.isInitialized = false ∨ s.isMuted = true then s
  else if (maxVoices : ℤ) ≤ s.activeVoices then s
  else if now - s.lastNoteTime < noteDensity then s
  else
    { s with activeVoices := s.activeVoices + 1
             scheduled := s.scheduled + 1
             notesStarted := s.notesStarted + 1
             lastNoteTime := now }

/-- The setTimeout callback scheduled by playNote (lines 163-166) firing:
one pending cleanup runs and decrements activeVoices.  The event can only
occur while a cleanup is actually pending. -/
def voiceEnd (s : SoundState) : SoundState :=
  if s.scheduled = 0 then s
  else { s with activeVoices := s.activeVoices - 1
                scheduled := s.scheduled - 1 }

/-- An event observable by the SoundManager state: an incoming
triggerInteractionSound call at context time now, or the expiry of one
scheduled voice-cleanup timer. -/
inductive SoundEvent
  | trig (now : ℝ)
  | finish

/-- One SoundManager state transition. -/
def soundStep (s : SoundState) : SoundEvent → SoundState
  | SoundEvent.trig now => triggerInteractionSound s now
  | SoundEvent.finish => voiceEnd s

/-- A run of the SoundManager over a sequence of events. -/
def soundRun (s : SoundState) : List SoundEvent → SoundState
  | [] => s
  | e :: es => soundRun (soundStep s e) es

/-- The SoundManager representation invariant: activeVoices matches the
number of pending cleanups (every started voice schedules exactly one) and
never exceeds the voice cap. -/
def SoundInv (s : SoundState) : Prop :=
  s.activeVoices = s.scheduled ∧ s.activeVoices ≤ (maxVoices : ℤ)

/-- The SoundManager state right after the constructor (lines 11-36). -/
def initialSound : SoundState :=
  { isInitialized := true, isMuted := false, activeVoices := 0,
    scheduled := 0, lastNoteTime := 0, notesStarted := 0 }

/-- A one-particle simulation state used to evaluate the embedding on
concrete input: the particle sits at (3,4,0) with its origin there, the
pointer world point is the local origin, and mouseForce is raised to 10. -/
def demoState : SimState :=
  { config := { defaultConfig with mouseForce := 10 }
    position := [⟨3, 4, 0⟩]
    origin := [⟨3, 4, 0⟩]
    velocity := [⟨0, 0, 0⟩]
    currentShape := Shape.sphere
    shapes := fun _ => [⟨3, 4, 0⟩]
    isTransforming := false
    isFrozen := false
    isInverted := false
    isMouseDown := false
    rotationY := 0
    cooldown := 0
    mouseWorld := ⟨0, 0, 0⟩ }

/-- demoState with the freeze flag set, as after pressing F. -/
def demoFrozen : SimState := { demoState with isFrozen := true }

/-- initialSound with the mute flag set, as after pressing M. -/
def mutedSound : SoundState := { initialSound with isMuted := true }

/-!  General lemmas about the embedded arithmetic.  -/

/-- The JavaScript remainder by 1 lies strictly between -1 and 1. -/
theorem jsRem1_bounds (a : ℝ) : -1 < jsRem1 a ∧ jsRem1 a < 1 := by
  unfold jsRem1 jsTrunc
  split
  · have h1 := Int.floor_le a
    have h2 := Int.lt_floor_add_one a
    constructor <;> [linarith; linarith]
  · have h1 := Int.le_ceil a
    have h2 := Int.ceil_lt_add_one a
    constructor <;> [push_cast; push_cast] <;> linarith

/-- Distances are nonnegative. -/
theorem dist3_nonneg (a b : Vec3) : 0 ≤ dist3 a b := Real.sqrt_nonneg _

/-- The distance of the concrete point (3,4,0) from the origin point. -/
theorem dist3_345 : dist3 ⟨3, 4, 0⟩ ⟨0, 0, 0⟩ = 5 := by
  unfold dist3
  rw [show ((3:ℝ) - 0) * (3 - 0) + (4 - 0) * (4 - 0) + (0 - 0) * (0 - 0)
      = 5 ^ 2 by norm_num]
  exact Real.sqrt_sq (by norm_num)

/-- Claim C10: noise3D is a pure deterministic function of its three
arguments - equal inputs give equal outputs - and its value always lies
strictly between -1 and 1. -/
theorem noise3D_deterministic_and_bounded (x y z x2 y2 z2 : ℝ) :
    (x = x2 ∧ y = y2 ∧ z = z2 → noise3D x y z = noise3D x2 y2 z2) ∧
    (-1 < noise3D x y z ∧ noise3D x y z < 1) :=
  ⟨fun h => by rw [h.1, h.2.1, h.2.2], jsRem1_bounds _⟩

/-- Concrete instance of the C10 theorem at the origin sample. -/
theorem noise3D_deterministic_and_bounded_witness :
    (noise3D 0 0 0 = noise3D 0 0 0) ∧
    (-1 < noise3D 0 0 0 ∧ noise3D 0 0 0 < 1) :=
  ⟨(noise3D_deterministic_and_bounded 0 0 0 0 0 0).1 ⟨rfl, rfl, rfl⟩,
   (noise3D_deterministic_and_bounded 0 0 0 0 0 0).2⟩

/-- Claim C6: toggleShape replaces only the originalPosition buffer with
the next shape's point cloud, leaves position and velocity untouched, and
advances the shape cycle sphere -> cube -> pyramid -> sphere. -/
theorem toggleShape_effect (s : SimState) :
    (toggleShape s).position = s.position ∧
    (toggleShape s).velocity = s.velocity ∧
    (toggleShape s).origin = s.shapes (nextShapeOf s.currentShape) ∧
    (toggleShape s).currentShape = nextShapeOf s.currentShape ∧
    nextShapeOf Shape.sphere = Shape.cube ∧
    nextShapeOf Shape.cube = Shape.pyramid ∧
    nextShapeOf Shape.pyramid = Shape.sphere :=
  ⟨rfl, rfl, rfl, rfl, rfl, rfl, rfl⟩

/-- Claim C7: after resetParticles every particle's position equals its
originalPosition and every velocity is exactly zero, and resetParticles is
idempotent. -/
theorem resetParticles_snap_idempotent (s : SimState) :
    (resetParticles s).position = (resetParticles s).origin ∧
    (resetParticles s).velocity =
      List.replicate s.velocity.length (⟨0, 0, 0⟩ : Vec3) ∧
    resetParticles (resetParticles s) = resetParticles s := by
  refine ⟨rfl, rfl, ?_⟩
  simp [resetParticles]

/-- Claim C9: when the audio subsystem is not initialized, or is muted,
triggerInteractionSound is a total no-op: it raises nothing, plays no note,
and returns the SoundManager state (activeVoices, lastNoteTime and all)
unchanged. -/
theorem trigger_silent_when_unavailable (s : SoundState) (now : ℝ)
    (h : s.isInitialized = false ∨ s.isMuted = true) :
    triggerInteractionSound s now = s := by
  unfold triggerInteractionSound
  rw [if_pos h]

/-- Concrete instance of the C9 theorem on a muted SoundManager. -/
theorem trigger_silent_when_unavailable_witness :
    mutedSound.isMuted = true ∧
    triggerInteractionSound mutedSound 7 = mutedSound :=
  ⟨rfl, trigger_silent_when_unavailable mutedSound 7 (Or.inr rfl)⟩

/-- Claim C1: at distance d from the interaction point with 0 < d <
mouseRadius, the interaction update adds to the velocity the radial force
f = (1 - d/R)^2 * mouseForce * (2.5 when pressed, else 1) along the unit
vector from the interaction point to the particle, plus the tangential
swirl (-dy, dx, 0) scaled by 0.3 * f * 0.2; at d = 0 or d >= mouseRadius
the velocity is returned unchanged, so the division by d never happens at
d = 0. -/
theorem interaction_force_law (cfg : Config) (pressed : Bool) (m p v : Vec3) :
    (0 < dist3 p m ∧ dist3 p m < cfg.mouseRadius →
      interactionStep cfg pressed m p v =
        ⟨v.x + (p.x - m.x) / dist3 p m *
            ((1 - dist3 p m / cfg.mouseRadius) ^ 2 * cfg.mouseForce *
              (if pressed then 2.5 else 1)) +
          (-(p.y - m.y)) * (0.3 *
            ((1 - dist3 p m / cfg.mouseRadius) ^ 2 * cfg.mouseForce *
              (if pressed then 2.5 else 1)) * 0.2),
         v.y + (p.y - m.y) / dist3 p m *
            ((1 - dist3 p m / cfg.mouseRadius) ^ 2 * cfg.mouseForce *
              (if pressed then 2.5 else 1)) +
          (p.x - m.x) * (0.3 *
            ((1 - dist3 p m / cfg.mouseRadius) ^ 2 * cfg.mouseForce *
              (if pressed then 2.5 else 1)) * 0.2),
         v.z + (p.z - m.z) / dist3 p m *
            ((1 - dist3 p m / cfg.mouseRadius) ^ 2 * cfg.mouseForce *
              (if pressed then 2.5 else 1))⟩) ∧
    (dist3 p m = 0 ∨ cfg.mouseRadius ≤ dist3 p m →
      interactionStep cfg pressed m p v = v) := by
  constructor
  · rintro ⟨h0, hR⟩
    show (if dist3 p m < cfg.mouseRadius ∧ 0 < dist3 p m then _ else v) = _
    rw [if_pos ⟨hR, h0⟩]
    apply Vec3.ext <;> simp only [interactionForce] <;> ring
  · rintro (h0 | hR)
    · show (if dist3 p m < cfg.mouseRadius ∧ 0 < dist3 p m then _ else v) = v
      rw [if_neg]
      rintro ⟨-, h⟩
      rw [h0] at h
      exact lt_irrefl 0 h
    · show (if dist3 p m < cfg.mouseRadius ∧ 0 < dist3 p m then _ else v) = v
      rw [if_neg]
      rintro ⟨h, -⟩
      exact absurd h (not_lt.mpr hR)

/-- Concrete instance of the C1 theorem: the particle at (3,4,0), the
interaction point at the origin, distance 5, default config, not pressed. -/
theorem interaction_force_law_witness :
    (0 < dist3 ⟨3, 4, 0⟩ ⟨0, 0, 0⟩ ∧
      dist3 ⟨3, 4, 0⟩ ⟨0, 0, 0⟩ < defaultConfig.mouseRadius) ∧
    interactionStep defaultConfig false ⟨0, 0, 0⟩ ⟨3, 4, 0⟩ ⟨0, 0, 0⟩ =
      ⟨841 / 2500, 41209 / 45000, 0⟩ := by
  have hd : dist3 ⟨3, 4, 0⟩ ⟨0, 0, 0⟩ = 5 := dist3_345
  have hmem : 0 < dist3 (⟨3, 4, 0⟩ : Vec3) ⟨0, 0, 0⟩ ∧
      dist3 (⟨3, 4, 0⟩ : Vec3) ⟨0, 0, 0⟩ < defaultConfig.mouseRadius := by
    rw [hd]
    exact ⟨by norm_num, by norm_num [defaultConfig]⟩
  refine ⟨hmem, ?_⟩
  rw [(interaction_force_law defaultConfig false ⟨0, 0, 0⟩ ⟨3, 4, 0⟩
    ⟨0, 0, 0⟩).1 hmem, hd]
  apply Vec3.ext <;> norm_num [defaultConfig]

/-- Claim C3: the turbulence term of the wind update is scaled by
windTurbulence and windInfluence but not by windStrength, so with
windStrength = 0 and windTurbulence > 0 a displaced particle's velocity is
still changed on every axis whose noise sample is nonzero. -/
theorem turbulence_unscaled_by_windStrength (cfg : Config) (t : ℝ)
    (p o v : Vec3) (hw : cfg.windStrength = 0)
    (ht : 0 < cfg.windTurbulence) (hd : 0 < dist3 p o) :
    (noise3D (p.x * 0.01 + t * 0.2) (p.y * 0.01) (p.z * 0.01) ≠ 0 →
      (windStep cfg t p (dist3 p o) v).x ≠ v.x) ∧
    (noise3D (p.x * 0.01) (p.y * 0.01 + t * 0.2) (p.z * 0.01) ≠ 0 →
      (windStep cfg t p (dist3 p o) v).y ≠ v.y) ∧
    (noise3D (p.x * 0.01) (p.y * 0.01) (p.z * 0.01 + t * 0.2) ≠ 0 →
      (windStep cfg t p (dist3 p o) v).z ≠ v.z) := by
  have hwi : 0 < min (dist3 p o / 50) 1 * 0.5 :=
    mul_pos (lt_min (by positivity) one_pos) (by norm_num)
  have hwx : windX cfg t = 0 := by simp [windX, hw]
  have hwy : windY cfg t = 0 := by simp [windY, hw]
  have hwz : windZ cfg t = 0 := by simp [windZ, hw]
  refine ⟨fun hnz heq => ?_, fun hnz heq => ?_, fun hnz heq => ?_⟩ <;>
    simp only [windStep, hwx, hwy, hwz, zero_add] at heq
  · have hterm : noise3D (p.x * 0.01 + t * 0.2) (p.y * 0.01) (p.z * 0.01) *
        cfg.windTurbulence * (min (dist3 p o / 50) 1 * 0.5) * 0.05 ≠ 0 :=
      mul_ne_zero (mul_ne_zero (mul_ne_zero hnz (ne_of_gt ht))
        (ne_of_gt hwi)) (by norm_num)
    exact hterm (by linarith)
  · have hterm : noise3D (p.x * 0.01) (p.y * 0.01 + t * 0.2) (p.z * 0.01) *
        cfg.windTurbulence * (min (dist3 p o / 50) 1 * 0.5) * 0.05 ≠ 0 :=
      mul_ne_zero (mul_ne_zero (mul_ne_zero hnz (ne_of_gt ht))
        (ne_of_gt hwi)) (by norm_num)
    exact hterm (by linarith)
  · have hterm : noise3D (p.x * 0.01) (p.y * 0.01) (p.z * 0.01 + t * 0.2) *
        cfg.windTurbulence * (min (dist3 p o / 50) 1 * 0.5) * 0.05 ≠ 0 :=
      mul_ne_zero (mul_ne_zero (mul_ne_zero hnz (ne_of_gt ht))
        (ne_of_gt hwi)) (by norm_num)
    exact hterm (by linarith)

/-- defaultConfig with the wind switched off; windTurbulence keeps its
default 0.2. -/
def windZeroConfig : Config := { defaultConfig with windStrength := 0 }

/-- A particle x-offset chosen so the x turbulence sample's sine argument
is exactly 0.00001. -/
def tinyX : ℝ := 5 / 64949

/-- The distance of the tiny test particle from the origin point. -/
theorem dist3_tiny : dist3 ⟨tinyX, 0, 0⟩ ⟨0, 0, 0⟩ = tinyX := by
  unfold dist3 tinyX
  rw [show ((5:ℝ) / 64949 - 0) * (5 / 64949 - 0) + (0 - 0) * (0 - 0) +
      (0 - 0) * (0 - 0) = (5 / 64949) * (5 / 64949) by norm_num]
  exact Real.sqrt_mul_self (by norm_num)

/-- The x turbulence sample of the tiny test particle at time 0 is the
positive value sin(0.00001) * 43758.5453, hence nonzero. -/
theorem tiny_noise_ne_zero :
    noise3D (tinyX * 0.01 + 0 * 0.2) ((0:ℝ) * 0.01) ((0:ℝ) * 0.01) ≠ 0 := by
  have harg : (tinyX * 0.01 + 0 * 0.2) * 12.9898 + (0:ℝ) * 0.01 * 78.233 +
      (0:ℝ) * 0.01 * 37.719 = 0.00001 := by norm_num [tinyX]
  have hs0 : 0 < Real.sin 0.00001 :=
    Real.sin_pos_of_pos_of_lt_pi (by norm_num)
      (lt_trans (by norm_num) Real.pi_gt_three)
  have hs1 : Real.sin 0.00001 < 0.00001 := Real.sin_lt (by norm_num)
  have hp0 : 0 < Real.sin 0.00001 * 43758.5453 := by positivity
  have hp1 : Real.sin 0.00001 * 43758.5453 < 1 := by nlinarith
  unfold noise3D jsRem1 jsTrunc
  rw [harg, if_pos (le_of_lt hp0),
    show ⌊Real.sin 0.00001 * 43758.5453⌋ = 0 from
      Int.floor_eq_zero_iff.mpr (Set.mem_Ico.mpr ⟨le_of_lt hp0, hp1⟩)]
  push_cast
  linarith

/-- Concrete instance of the C3 theorem: windStrength zero, default
windTurbulence, a slightly displaced particle, time 0; the x velocity
still changes. -/
theorem turbulence_unscaled_witness :
    (windStep windZeroConfig 0 ⟨tinyX, 0, 0⟩
        (dist3 ⟨tinyX, 0, 0⟩ ⟨0, 0, 0⟩) ⟨0, 0, 0⟩).x ≠ (0:ℝ) := by
  have hd : 0 < dist3 (⟨tinyX, 0, 0⟩ : Vec3) ⟨0, 0, 0⟩ := by
    rw [dist3_tiny]; norm_num [tinyX]
  exact (turbulence_unscaled_by_windStrength windZeroConfig 0 ⟨tinyX, 0, 0⟩
    ⟨0, 0, 0⟩ ⟨0, 0, 0⟩ rfl (by norm_num [windZeroConfig, defaultConfig])
    hd).1 tiny_noise_ne_zero

/-- With mouseForce = 0 the interaction update is the identity on the
velocity: the applied force is zero in both branches. -/
theorem interactionStep_of_forceless (cfg : Config) (pressed : Bool)
    (m p v : Vec3) (hm : cfg.mouseForce = 0) :
    interactionStep cfg pressed m p v = v := by
  simp only [interactionStep]
  split
  · apply Vec3.ext <;> simp [interactionForce, hm]
  · rfl

/-- With windStrength = 0 and windTurbulence = 0 the wind update is the
identity on the velocity. -/
theorem windStep_of_still (cfg : Config) (t : ℝ) (p : Vec3)
    (displacement : ℝ) (v : Vec3) (hw : cfg.windStrength = 0)
    (hwt : cfg.windTurbulence = 0) :
    windStep cfg t p displacement v = v := by
  apply Vec3.ext <;> simp [windStep, windX, windY, windZ, hw, hwt]

/-- A particle sitting exactly at its origin has windInfluence 0, so the
wind update leaves its velocity unchanged whatever the wind is. -/
theorem windStep_of_home (cfg : Config) (t : ℝ) (p v : Vec3) :
    windStep cfg t p 0 v = v := by
  have hmin : min ((0:ℝ) / 50) 1 = 0 := by
    rw [zero_div]; exact min_eq_left zero_le_one
  apply Vec3.ext <;> simp [windStep, hmin]

/-- With noiseAmount = 0 the jitter update is skipped. -/
theorem jitterStep_of_quiet (cfg : Config) (t : ℝ) (p v : Vec3)
    (hn : cfg.noiseAmount = 0) : jitterStep cfg t p v = v := by
  unfold jitterStep
  rw [if_neg]
  rw [hn]
  exact lt_irrefl 0

/-- defaultConfig with mouseForce, windStrength and noiseAmount zeroed -
exactly the configuration quantified over by the return-spring convergence
property; windTurbulence keeps its default 0.2. -/
def calmConfig : Config :=
  { defaultConfig with mouseForce := 0, windStrength := 0, noiseAmount := 0 }

/-- calmConfig with the turbulence also switched off. -/
def stillConfig : Config := { calmConfig with windTurbulence := 0 }

/-- The zero distance of the origin point from itself. -/
theorem dist3_zero_self : dist3 ⟨0, 0, 0⟩ ⟨0, 0, 0⟩ = 0 := by
  unfold dist3
  rw [show ((0:ℝ) - 0) * (0 - 0) + (0 - 0) * (0 - 0) + (0 - 0) * (0 - 0)
      = 0 by norm_num]
  exact Real.sqrt_zero

/-- Counterexample to claim C2 as stated: with mouseForce = 0,
windStrength = 0 and noiseAmount = 0, one updateParticles step can still
increase a particle's displacement from its origin - here a particle at
its origin with velocity (3,4,0) moves to displacement 5. -/
theorem calm_step_displacement_counterexample :
    dist3 ⟨0, 0, 0⟩ ⟨0, 0, 0⟩ <
      dist3 (updateParticle calmConfig false ⟨0, 0, 0⟩ 0
        ⟨0, 0, 0⟩ ⟨0, 0, 0⟩ ⟨3, 4, 0⟩).1 ⟨0, 0, 0⟩ := by
  have hstep : (updateParticle calmConfig false ⟨0, 0, 0⟩ 0
      ⟨0, 0, 0⟩ ⟨0, 0, 0⟩ ⟨3, 4, 0⟩).1 = (⟨3, 4, 0⟩ : Vec3) := by
    simp only [updateParticle, dist3_zero_self]
    rw [interactionStep_of_forceless _ _ _ _ _ (by norm_num [calmConfig, defaultConfig]),
      windStep_of_home,
      jitterStep_of_quiet _ _ _ _ (by norm_num [calmConfig, defaultConfig])]
    rw [show returnStep calmConfig ⟨0, 0, 0⟩ ⟨0, 0, 0⟩ 0 ⟨3, 4, 0⟩
        = (⟨3, 4, 0⟩ : Vec3) from by unfold returnStep; rw [if_neg (by norm_num)]]
    apply Vec3.ext <;> norm_num
  rw [hstep, dist3_zero_self, dist3_345]
  norm_num

/-- Claim C2, amended: with mouseForce, windStrength, noiseAmount and
windTurbulence all zero, one updateParticles step applied to a particle at
rest (zero velocity) never increases its displacement from its origin,
provided the nonlinear spring gain returnSpeed * (1 + displacement * 0.01)
lies in [0, 1]. -/
theorem calm_step_nonincreasing (cfg : Config) (pressed : Bool)
    (m : Vec3) (t : ℝ) (p o : Vec3)
    (hm : cfg.mouseForce = 0) (hw : cfg.windStrength = 0)
    (hn : cfg.noiseAmount = 0) (hwt : cfg.windTurbulence = 0)
    (hr : 0 ≤ cfg.returnSpeed)
    (hpull : cfg.returnSpeed * (1 + dist3 p o * 0.01) ≤ 1) :
    dist3 (updateParticle cfg pressed m t p o ⟨0, 0, 0⟩).1 o ≤ dist3 p o := by
  simp only [updateParticle]
  rw [interactionStep_of_forceless _ _ _ _ _ hm,
    windStep_of_still _ _ _ _ _ hw hwt,
    jitterStep_of_quiet _ _ _ _ hn]
  by_cases hd : 0.1 < dist3 p o
  · have h0d : 0 ≤ dist3 p o := dist3_nonneg p o
    have hk0 : 0 ≤ cfg.returnSpeed * (1 + dist3 p o * 0.01) :=
      mul_nonneg hr (by linarith)
    unfold returnStep
    rw [if_pos hd]
    calc dist3 ⟨p.x + ((⟨0,0,0⟩ : Vec3).x +
            (o.x - p.x) * (cfg.returnSpeed * (1 + dist3 p o * 0.01))),
          p.y + ((⟨0,0,0⟩ : Vec3).y +
            (o.y - p.y) * (cfg.returnSpeed * (1 + dist3 p o * 0.01))),
          p.z + ((⟨0,0,0⟩ : Vec3).z +
            (o.z - p.z) * (cfg.returnSpeed * (1 + dist3 p o * 0.01)))⟩ o
        = Real.sqrt ((1 - cfg.returnSpeed * (1 + dist3 p o * 0.01)) *
            (1 - cfg.returnSpeed * (1 + dist3 p o * 0.01)) *
            ((p.x - o.x) * (p.x - o.x) + (p.y - o.y) * (p.y - o.y) +
              (p.z - o.z) * (p.z - o.z))) := by
          unfold dist3
          congr 1
          ring
      _ = (1 - cfg.returnSpeed * (1 + dist3 p o * 0.01)) * dist3 p o := by
          rw [Real.sqrt_mul (mul_self_nonneg _),
            Real.sqrt_mul_self (by linarith)]
          rfl
      _ ≤ 1 * dist3 p o :=
          mul_le_mul_of_nonneg_right (by linarith) h0d
      _ = dist3 p o := one_mul _
  · unfold returnStep
    rw [if_neg hd]
    have : (⟨p.x + (⟨0,0,0⟩ : Vec3).x, p.y + (⟨0,0,0⟩ : Vec3).y,
        p.z + (⟨0,0,0⟩ : Vec3).z⟩ : Vec3) = p := by
      apply Vec3.ext <;> norm_num
    rw [this]

/-- Concrete instance of the amended C2 theorem: a resting particle at
displacement 5 under stillConfig does not drift outward in one step. -/
theorem calm_step_nonincreasing_witness :
    dist3 (updateParticle stillConfig false ⟨0, 0, 0⟩ 0
        ⟨3, 4, 0⟩ ⟨0, 0, 0⟩ ⟨0, 0, 0⟩).1 ⟨0, 0, 0⟩ ≤
      dist3 ⟨3, 4, 0⟩ ⟨0, 0, 0⟩ :=
  calm_step_nonincreasing stillConfig false ⟨0, 0, 0⟩ 0 ⟨3, 4, 0⟩ ⟨0, 0, 0⟩
    (by norm_num [stillConfig, calmConfig, defaultConfig])
    (by norm_num [stillConfig, calmConfig, defaultConfig])
    (by norm_num [stillConfig, calmConfig, defaultConfig])
    (by norm_num [stillConfig, calmConfig, defaultConfig])
    (by norm_num [stillConfig, calmConfig, defaultConfig])
    (by rw [dist3_345]; norm_num [stillConfig, calmConfig, defaultConfig])

/-- The physics integration never touches the field's rotation angle. -/
theorem updateParticlesSim_rotationY (s : SimState) (t : ℝ) :
    ((updateParticlesSim s t).1).rotationY = s.rotationY := rfl

/-- Claim C8: every animate step adds rotationSpeed to the rotation angle,
with the sign flipped in inverted color mode, frozen or not; and while
frozen the step leaves every particle position and velocity unchanged
because updateParticles is skipped. -/
theorem animate_rotates_freeze_suspends (s : SimState) (t : ℝ) :
    ((animateStep s t).1.rotationY =
      s.rotationY + s.config.rotationSpeed *
        (if s.isInverted then -1 else 1)) ∧
    (s.isFrozen = true →
      (animateStep s t).1.position = s.position ∧
      (animateStep s t).1.velocity = s.velocity) := by
  by_cases hf : s.isFrozen = true
  · constructor
    · simp [animateStep, hf]
    · intro _
      constructor <;> simp [animateStep, hf]
  · constructor
    · simp only [animateStep]
      rw [if_neg hf, updateParticlesSim_rotationY]
    · intro h
      exact absurd h hf

/-- Concrete instance of the C8 theorem on the frozen demo state. -/
theorem animate_rotates_freeze_suspends_witness :
    ((animateStep demoFrozen 0).1.rotationY =
      demoFrozen.rotationY + demoFrozen.config.rotationSpeed *
        (if demoFrozen.isInverted then -1 else 1)) ∧
    ((animateStep demoFrozen 0).1.position = demoFrozen.position ∧
     (animateStep demoFrozen 0).1.velocity = demoFrozen.velocity) :=
  ⟨(animate_rotates_freeze_suspends demoFrozen 0).1,
   (animate_rotates_freeze_suspends demoFrozen 0).2 rfl⟩

/-- The spec's notion of interaction energy, written from its words alone:
the per-frame sum, over all particles, of the repulsion-force magnitudes
that exceed 0.1, where the repulsion force is (1 - d/R)^2 scaled by the
effective mouse force inside the interaction radius and zero elsewhere. -/
def specInteractionEnergy (cfg : Config) (pressed : Bool) (m : Vec3)
    (ps : List Vec3) : ℝ :=
  (ps.map (fun p =>
    let f := if 0 < dist3 p m ∧ dist3 p m < cfg.mouseRadius then
        interactionForce cfg pressed (dist3 p m)
      else 0
    if 0.1 < f then f else 0)).sum

/-- The loop's per-particle energy accumulation agrees with the spec's
description of the summand. -/
theorem energyContrib_spec (cfg : Config) (pressed : Bool) (m p : Vec3) :
    energyContrib cfg pressed m p =
      (if 0.1 < (if 0 < dist3 p m ∧ dist3 p m < cfg.mouseRadius then
            interactionForce cfg pressed (dist3 p m) else 0) then
        (if 0 < dist3 p m ∧ dist3 p m < cfg.mouseRadius then
            interactionForce cfg pressed (dist3 p m) else 0)
       else 0) := by
  simp only [energyContrib]
  by_cases hc : 0 < dist3 p m ∧ dist3 p m < cfg.mouseRadius
  · by_cases hf : 0.1 < interactionForce cfg pressed (dist3 p m)
    · rw [if_pos ⟨⟨hc.2, hc.1⟩, hf⟩, if_pos hc, if_pos hf]
    · rw [if_neg (fun h => hf h.2), if_pos hc, if_neg hf]
  · rw [if_neg (fun h => hc ⟨h.1.2, h.1.1⟩), if_neg hc,
      if_neg (by norm_num : ¬(0.1:ℝ) < 0)]

/-- The third component of the loop body is the energy contribution. -/
theorem updateParticle_energy (cfg : Config) (pressed : Bool) (m : Vec3)
    (t : ℝ) (p o v : Vec3) :
    (updateParticle cfg pressed m t p o v).2.2 =
      energyContrib cfg pressed m p := rfl

/-- Claim C4, amended: the frame's accumulated interaction energy is the
sum over all particles of the repulsion-force magnitudes above 0.1, as the
spec describes; and triggerInteractionSound is invoked with that energy iff
the energy exceeds 5.0 and the frame's Math.random() draw r falls below
min(energy * 0.005, 0.5) - the call is probability-gated, not unconditional
on the threshold. -/
theorem energy_sum_and_audio_gate (s : SimState) (t : ℝ)
    (h1 : s.position.length ≤ s.origin.length)
    (h2 : s.position.length ≤ s.velocity.length) :
    (updateParticlesSim s t).2 =
      specInteractionEnergy s.config s.isMouseDown
        (rotYInv s.rotationY s.mouseWorld) s.position ∧
    (∀ r : ℝ, audioDecision ((updateParticlesSim s t).2) r =
        some ((updateParticlesSim s t).2) ↔
      (5.0 < (updateParticlesSim s t).2 ∧
       r < min ((updateParticlesSim s t).2 * 0.005) 0.5)) := by
  constructor
  · have hz : s.position.length ≤ (s.origin.zip s.velocity).length := by
      rw [List.length_zip]
      exact le_min h1 h2
    show (((s.position.zip (s.origin.zip s.velocity)).map
        (fun pov => updateParticle s.config s.isMouseDown
          (rotYInv s.rotationY s.mouseWorld) t pov.1 pov.2.1 pov.2.2)).map
        (fun r => r.2.2)).sum = _
    rw [List.map_map]
    have hcomp : ((fun r : Vec3 × Vec3 × ℝ => r.2.2) ∘
        (fun pov : Vec3 × Vec3 × Vec3 => updateParticle s.config s.isMouseDown
          (rotYInv s.rotationY s.mouseWorld) t pov.1 pov.2.1 pov.2.2)) =
        ((fun p : Vec3 => energyContrib s.config s.isMouseDown
          (rotYInv s.rotationY s.mouseWorld) p) ∘ Prod.fst) := rfl
    rw [hcomp, ← List.map_map, List.map_fst_zip _ _ hz]
    simp only [specInteractionEnergy, energyContrib_spec]
  · intro r
    unfold audioDecision
    by_cases h5 : 5.0 < (updateParticlesSim s t).2
    · rw [if_pos h5]
      by_cases hr : r < min ((updateParticlesSim s t).2 * 0.005) 0.5
      · rw [if_pos hr]
        simp [h5, hr]
      · rw [if_neg hr]
        simp [hr]
    · rw [if_neg h5]
      simp [h5]

/-- The demo frame's accumulated interaction energy: one particle at
distance 5 with mouseForce 10 contributes (29/30)^2 * 10 = 841/90. -/
theorem demoState_energy : (updateParticlesSim demoState 0).2 = 841 / 90 := by
  have hm : rotYInv demoState.rotationY demoState.mouseWorld =
      (⟨0, 0, 0⟩ : Vec3) := by
    apply Vec3.ext <;> simp [rotYInv, rotY, demoState]
  show (((demoState.position.zip (demoState.origin.zip demoState.velocity)).map
      (fun pov => updateParticle demoState.config demoState.isMouseDown
        (rotYInv demoState.rotationY demoState.mouseWorld) 0
        pov.1 pov.2.1 pov.2.2)).map (fun r => r.2.2)).sum = 841 / 90
  rw [hm]
  show (((([⟨3,4,0⟩] : List Vec3).zip (([⟨3,4,0⟩] : List Vec3).zip
      ([⟨0,0,0⟩] : List Vec3))).map
      (fun pov => updateParticle demoState.config false ⟨0,0,0⟩ 0
        pov.1 pov.2.1 pov.2.2)).map (fun r => r.2.2)).sum = 841 / 90
  simp only [List.zip_cons_cons, List.zip_nil_right, List.map_cons,
    List.map_nil, List.sum_cons, List.sum_nil, updateParticle_energy]
  rw [energyContrib_spec]
  rw [if_pos (by rw [dist3_345]; exact ⟨by norm_num, by norm_num [demoState, defaultConfig]⟩ :
    0 < dist3 (⟨3,4,0⟩ : Vec3) ⟨0,0,0⟩ ∧
      dist3 (⟨3,4,0⟩ : Vec3) ⟨0,0,0⟩ < demoState.config.mouseRadius)]
  rw [show interactionForce demoState.config false
      (dist3 ⟨3,4,0⟩ ⟨0,0,0⟩) = 841 / 90 from by
    rw [dist3_345]
    norm_num [interactionForce, demoState, defaultConfig]]
  rw [if_pos (by norm_num : (0.1:ℝ) < 841 / 90)]
  norm_num

/-- Counterexample to claim C4 as stated: a frame whose accumulated
interaction energy 841/90 exceeds the 5.0 threshold, yet with random draw
0.9 the energy is not forwarded - no triggerInteractionSound call is made,
because the probability gate min(energy * 0.005, 0.5) fails. -/
theorem audio_forwarding_counterexample :
    5.0 < (updateParticlesSim demoState 0).2 ∧
    audioDecision ((updateParticlesSim demoState 0).2) 0.9 = none := by
  rw [demoState_energy]
  constructor
  · norm_num
  · unfold audioDecision
    rw [if_pos (by norm_num : (5.0:ℝ) < 841 / 90),
      if_neg (by rw [min_eq_left (by norm_num)]; norm_num)]

/-- Concrete instance of the amended C4 theorem on the demo frame with
random draw 0.9. -/
theorem energy_sum_and_audio_gate_witness :
    ((updateParticlesSim demoState 0).2 =
      specInteractionEnergy demoState.config demoState.isMouseDown
        (rotYInv demoState.rotationY demoState.mouseWorld)
        demoState.position) ∧
    (audioDecision ((updateParticlesSim demoState 0).2) 0.9 =
        some ((updateParticlesSim demoState 0).2) ↔
      (5.0 < (updateParticlesSim demoState 0).2 ∧
       0.9 < min ((updateParticlesSim demoState 0).2 * 0.005) 0.5)) :=
  ⟨(energy_sum_and_audio_gate demoState 0 (by norm_num [demoState])
      (by norm_num [demoState])).1,
   (energy_sum_and_audio_gate demoState 0 (by norm_num [demoState])
      (by norm_num [demoState])).2 0.9⟩

/-- Every triggerInteractionSound call either leaves the state untouched
or - only below the voice cap - starts exactly one note. -/
theorem trigger_cases (s : SoundState) (now : ℝ) :
    triggerInteractionSound s now = s ∨
    (s.activeVoices < (maxVoices : ℤ) ∧
     triggerInteractionSound s now =
       { s with activeVoices := s.activeVoices + 1
                scheduled := s.scheduled + 1
                notesStarted := s.notesStarted + 1
                lastNoteTime := now }) := by
  unfold triggerInteractionSound
  by_cases h1 : s.isInitialized = false ∨ s.isMuted = true
  · rw [if_pos h1]
    exact Or.inl rfl
  · rw [if_neg h1]
    by_cases h2 : (maxVoices : ℤ) ≤ s.activeVoices
    · rw [if_pos h2]
      exact Or.inl rfl
    · rw [if_neg h2]
      by_cases h3 : now - s.lastNoteTime < noteDensity
      · rw [if_pos h3]
        exact Or.inl rfl
      · rw [if_neg h3]
        exact Or.inr ⟨lt_of_not_le h2, rfl⟩

/-- A call within noteDensity seconds of the last note never plays. -/
theorem trigger_blocked_of_recent (s : SoundState) (now : ℝ)
    (h : now - s.lastNoteTime < noteDensity) :
    triggerInteractionSound s now = s := by
  unfold triggerInteractionSound
  by_cases h1 : s.isInitialized = false ∨ s.isMuted = true
  · rw [if_pos h1]
  · rw [if_neg h1]
    by_cases h2 : (maxVoices : ℤ) ≤ s.activeVoices
    · rw [if_pos h2]
    · rw [if_neg h2, if_pos h]

/-- One call starts at most one note. -/
theorem trigger_notes_le (s : SoundState) (now : ℝ) :
    (triggerInteractionSound s now).notesStarted ≤ s.notesStarted + 1 := by
  rcases trigger_cases s now with heq | ⟨-, heq⟩
  · rw [heq]
    exact Nat.le_succ _
  · rw [heq]

/-- The voice-count invariant is preserved by every SoundManager event. -/
theorem soundStep_inv (s : SoundState) (e : SoundEvent) (h : SoundInv s) :
    SoundInv (soundStep s e) := by
  obtain ⟨hcnt, hmax⟩ := h
  cases e with
  | trig now =>
      show SoundInv (triggerInteractionSound s now)
      rcases trigger_cases s now with heq | ⟨hlt, heq⟩ <;> rw [heq]
      · exact ⟨hcnt, hmax⟩
      · constructor
        · show s.activeVoices + 1 = ((s.scheduled + 1 : ℕ) : ℤ)
          push_cast
          omega
        · show s.activeVoices + 1 ≤ (maxVoices : ℤ)
          omega
  | finish =>
      show SoundInv (voiceEnd s)
      unfold voiceEnd
      by_cases hs : s.scheduled = 0
      · rw [if_pos hs]
        exact ⟨hcnt, hmax⟩
      · rw [if_neg hs]
        constructor
        · show s.activeVoices - 1 = ((s.scheduled - 1 : ℕ) : ℤ)
          omega
        · show s.activeVoices - 1 ≤ (maxVoices : ℤ)
          omega

/-- The voice-count invariant is preserved by every event sequence. -/
theorem soundRun_inv (es : List SoundEvent) :
    ∀ s : SoundState, SoundInv s → SoundInv (soundRun s es) := by
  induction es with
  | nil => exact fun s h => h
  | cons e es ih => exact fun s h => ih _ (soundStep_inv s e h)

/-- Voice-cleanup timers never change the note count or the last note
time. -/
theorem finishRun_fields (n : ℕ) (s : SoundState) :
    (soundRun s (List.replicate n SoundEvent.finish)).notesStarted =
      s.notesStarted ∧
    (soundRun s (List.replicate n SoundEvent.finish)).lastNoteTime =
      s.lastNoteTime := by
  induction n generalizing s with
  | zero => exact ⟨rfl, rfl⟩
  | succ n ih =>
      have hve : (voiceEnd s).notesStarted = s.notesStarted ∧
          (voiceEnd s).lastNoteTime = s.lastNoteTime := by
        unfold voiceEnd
        split <;> exact ⟨rfl, rfl⟩
      obtain ⟨h1, h2⟩ := ih (voiceEnd s)
      rw [List.replicate_succ]
      exact ⟨h1.trans hve.1, h2.trans hve.2⟩

/-- Claim C5: along any sequence of triggerInteractionSound calls and
voice-cleanup expirations the number of active voices stays within
[0, maxVoices]; and two calls less than noteDensity seconds apart - with
any number of cleanups in between - start at most one note together. -/
theorem voices_bounded_and_rate_limited (s0 : SoundState)
    (hcnt : s0.activeVoices = (s0.scheduled : ℤ))
    (hmax : s0.activeVoices ≤ (maxVoices : ℤ)) :
    (∀ es : List SoundEvent,
      0 ≤ (soundRun s0 es).activeVoices ∧
      (soundRun s0 es).activeVoices ≤ (maxVoices : ℤ)) ∧
    (∀ t1 t2 : ℝ, ∀ n : ℕ, t2 - t1 < noteDensity →
      (triggerInteractionSound
          (soundRun (triggerInteractionSound s0 t1)
            (List.replicate n SoundEvent.finish)) t2).notesStarted ≤
        s0.notesStarted + 1) := by
  constructor
  · intro es
    have h := soundRun_inv es s0 ⟨hcnt, hmax⟩
    refine ⟨?_, h.2⟩
    rw [h.1]
    exact Int.natCast_nonneg _
  · intro t1 t2 n hlt
    rcases trigger_cases s0 t1 with heq | ⟨-, heq⟩ <;> rw [heq]
    · calc (triggerInteractionSound
            (soundRun s0 (List.replicate n SoundEvent.finish)) t2).notesStarted
          ≤ (soundRun s0 (List.replicate n SoundEvent.finish)).notesStarted
              + 1 := trigger_notes_le _ _
        _ = s0.notesStarted + 1 := by rw [(finishRun_fields n s0).1]
    · have hf := finishRun_fields n
        { s0 with activeVoices := s0.activeVoices + 1
                  scheduled := s0.scheduled + 1
                  notesStarted := s0.notesStarted + 1
                  lastNoteTime := t1 }
      have hblock := trigger_blocked_of_recent
        (soundRun { s0 with activeVoices := s0.activeVoices + 1
                            scheduled := s0.scheduled + 1
                            notesStarted := s0.notesStarted + 1
                            lastNoteTime := t1 }
          (List.replicate n SoundEvent.finish)) t2
        (by rw [hf.2]; exact hlt)
      rw [hblock, hf.1]

/-- Concrete instance of the C5 theorem from the freshly initialized
SoundManager: a trigger plus one voice expiry, and two calls 0.1 s apart. -/
theorem voices_bounded_and_rate_limited_witness :
    (0 ≤ (soundRun initialSound
        [SoundEvent.trig 1, SoundEvent.finish]).activeVoices ∧
     (soundRun initialSound
        [SoundEvent.trig 1, SoundEvent.finish]).activeVoices ≤
       (maxVoices : ℤ)) ∧
    (triggerInteractionSound
        (soundRun (triggerInteractionSound initialSound 10)
          (List.replicate 1 SoundEvent.finish)) 10.1).notesStarted ≤
      initialSound.notesStarted + 1 := by
  have h := voices_bounded_and_rate_limited initialSound
    (by norm_num [initialSound]) (by norm_num [initialSound, maxVoices])
  exact ⟨h.1 [SoundEvent.trig 1, SoundEvent.finish],
    h.2 10 10.1 1 (by norm_num [noteDensity])⟩

end ParticleSim
